import Mathlib

/-!
Shallow embedding of the pyEQL Solution composition model, unit-conversion
engine, activity-coefficient dispatcher and mixing operator (src/pyEQL.py).

Python floats are modelled as exact rationals (the composition layer) and as
real numbers (the activity formula layer, which uses sqrt/log/exp/rpow).
Fallible Python code (KeyError, NameError, TypeError, AttributeError, and the
print-and-return-None invalid-unit path) is modelled with Except PyErr.
On an error the input Solution is unchanged: the model returns no new state,
mirroring an in-place mutation that never happened.
-/

namespace PyEQL

/-- Outcomes of Python code paths that do not produce a value:
an unrecognized unit string (print + return None), a reference to an
undefined variable (NameError), an operation on an incompatible object such
as an uncalled bound method (TypeError), access to a missing attribute
(AttributeError), and a missing dictionary key (KeyError). -/
inductive PyErr where
  | invalidUnit
  | nameError
  | typeError
  | attributeError
  | keyError
deriving DecidableEq

/-- Parameter bag stored by Solute.set_parameters_TCPC (src/pyEQL.py:1544):
{'S','b','n','z_plus','z_minus','nu_plus','nu_minus'}. -/
structure TCPC where
  S : ℚ
  b : ℚ
  n : ℚ
  z_plus : ℚ
  z_minus : ℚ
  nu_plus : ℚ
  nu_minus : ℚ
deriving DecidableEq

/-- str.endswith(suffix), evaluated on the character lists of the strings. -/
def str_ends_with (s t : String) : Bool :=
  if t.data.length ≤ s.data.length then
    s.data.drop (s.data.length - t.data.length) == t.data
  else false

/-- Valence parsed from the trailing sign notation of a formula, following the
elif cascade in Solute.__init__ (src/pyEQL.py:1478-1510).  A formula with a
'+' or '-' that matches none of the suffixes gets charge 0 with a printed
warning; a formula with no sign token gets charge 0 silently. -/
def compute_charge (formula : String) : ℤ :=
  if str_ends_with formula "-" then -1
  else if str_ends_with formula "+" then 1
  else if str_ends_with formula "-2" then -2
  else if str_ends_with formula "+2" then 2
  else if str_ends_with formula "-3" then -3
  else if str_ends_with formula "+3" then 3
  else if str_ends_with formula "-4" then -4
  else if str_ends_with formula "+4" then 4
  else if str_ends_with formula "-5" then -5
  else if str_ends_with formula "+5" then 5
  else if str_ends_with formula "-6" then -6
  else if str_ends_with formula "+6" then 6
  else if str_ends_with formula "-7" then -7
  else if str_ends_with formula "+7" then 7
  else if formula.data.contains '-' || formula.data.contains '+' then 0
  else 0

/-- One chemical species: Solution.Solute (src/pyEQL.py:1467-1475).
The charge is computed once at construction; parameters is the custom
parameter dictionary; parameters_TCPC starts empty ({} in Python, none here). -/
structure Solute where
  formula : String
  mw : ℚ
  moles : ℚ
  charge : ℤ
  parameters : List (String × ℚ)
  parameters_TCPC : Option TCPC
deriving DecidableEq

/-- Solute.__init__: stores formula, molecular weight, moles and custom
parameters, derives the charge from the formula, and starts with an empty
TCPC parameter dictionary. -/
def mkSolute (formula : String) (mw moles : ℚ) (parameters : List (String × ℚ)) : Solute :=
  { formula := formula, mw := mw, moles := moles,
    charge := compute_charge formula, parameters := parameters,
    parameters_TCPC := none }

/-- Solute.set_parameters_TCPC: wholesale replacement of the parameter bag. -/
def set_parameters_TCPC (c : Solute) (p : TCPC) : Solute :=
  { c with parameters_TCPC := some p }

/-- One entry of the list-of-lists passed to Solution(): [formula, molecular
weight, amount, unit, parameters], with unit defaulting to 'kg' and
parameters to {} when the Python list is shorter. -/
structure SoluteDesc where
  formula : String
  mw : ℚ
  amount : ℚ
  unit : String
  parameters : List (String × ℚ)
deriving DecidableEq

/-- The Solution state: self.density, self.temperature, self.pressure,
self.components (an insertion-ordered dict, modelled as a list unique on
formula), self.solvent_name, and self.volume (computed once in __init__ and
never recomputed; set_amount does not touch it). -/
structure Solution where
  density : ℚ
  temperature : ℚ
  pressure : ℚ
  components : List Solute
  solvent_name : String
  volume : ℚ
deriving DecidableEq

/-- Dictionary lookup self.components[name] (first match; keys are unique). -/
def findComp : List Solute → String → Option Solute
  | [], _ => none
  | c :: cs, n => if c.formula = n then some c else findComp cs n

/-- self.components.update({c.formula: c}): replace in place if the key
exists (keeping its position, as Python dicts do), else append. -/
def updateComp : List Solute → Solute → List Solute
  | [], c => [c]
  | d :: cs, c => if d.formula = c.formula then c :: cs else d :: updateComp cs c

/-- self.components[name].set_moles(m): update the moles of the named solute
in place; a missing key leaves the list unchanged (callers check first). -/
def setMolesComp : List Solute → String → ℚ → List Solute
  | [], _, _ => []
  | c :: cs, n, m =>
    if c.formula = n then { c with moles := m } :: cs else c :: setMolesComp cs n m

/-- Blend.components[name].set_parameters_TCPC(...): in-place wholesale
replacement of the named solute's TCPC parameter bag. -/
def setTCPCComp : List Solute → String → TCPC → List Solute
  | [], _, _ => []
  | c :: cs, n, p =>
    if c.formula = n then set_parameters_TCPC c p :: cs else c :: setTCPCComp cs n p

/-- The 'kg' branch of get_amount: moles * molecular weight / 1e3
(src/pyEQL.py:1811). -/
def soluteMassKg (c : Solute) : ℚ := c.moles * c.mw / 1e3

/-- Solution.get_mass (src/pyEQL.py:1680-1685): total mass in kg, summing
get_amount(item, 'kg') over all components. -/
def listMass (components : List Solute) : ℚ :=
  components.foldl (fun acc c => acc + soluteMassKg c) 0

def get_mass (s : Solution) : ℚ := listMass s.components

/-- Solution.get_volume (src/pyEQL.py:1677): returns the frozen volume; the
temperature argument is accepted but ignored. -/
def get_volume (s : Solution) (_temperature : ℚ) : ℚ := s.volume

/-- Solution.get_solvent_mass (src/pyEQL.py:1662-1664): equals
get_amount(self.solvent_name, 'kg'), i.e. a components lookup followed by the
'kg' conversion; KeyError if the solvent is not among the components. -/
def get_solvent_mass (s : Solution) : Except PyErr ℚ :=
  match findComp s.components s.solvent_name with
  | none => Except.error PyErr.keyError
  | some sv => Except.ok (soluteMassKg sv)

/-- Solution.get_total_moles_solute (src/pyEQL.py:1894-1900): total moles of
every component whose formula differs from the solvent name. -/
def get_total_moles_solute (s : Solution) : ℚ :=
  s.components.foldl (fun acc c => if c.formula = s.solvent_name then acc else acc + c.moles) 0

/-- Solution.get_moles_water (src/pyEQL.py:1934): equals
get_amount(self.solvent_name, 'mol'). -/
def get_moles_water (s : Solution) : Except PyErr ℚ :=
  match findComp s.components s.solvent_name with
  | none => Except.error PyErr.keyError
  | some sv => Except.ok sv.moles

/-- Unit dispatch of Solution.get_amount (src/pyEQL.py:1776-1825) after the
components lookup has succeeded.  The five mass-fraction branches ('ppt',
'ppb', 'ppm'/'mg/kg', '%', 'g/g'/'mg/mg'/'kg/kg') all evaluate
`moles * mw / (self.get_mass * 1e3) * scale` where self.get_mass is the
bound method itself, not a call (the parentheses are missing in the source),
so Python raises TypeError on every one of them.  An unrecognized unit
prints a message and returns None (no numeric result). -/
def amount_of (s : Solution) (ion : Solute) (unit : String) (temperature : ℚ) :
    Except PyErr ℚ :=
  let moles := ion.moles
  if unit = "mol" then Except.ok moles
  else if unit = "mmol" then Except.ok (moles * 1000)
  else if unit = "mol/kg" then
    match get_solvent_mass s with
    | Except.error e => Except.error e
    | Except.ok m => Except.ok (moles / m)
  else if unit = "fraction" then
    match get_moles_water s with
    | Except.error e => Except.error e
    | Except.ok w => Except.ok (moles / (get_total_moles_solute s + w))
  else if unit = "mol/L" then Except.ok (moles / get_volume s temperature)
  else if unit = "mmol/L" then Except.ok (moles * 1000 / get_volume s temperature)
  else if unit = "ng/L" then Except.ok (moles * ion.mw * 1e9 / get_volume s temperature)
  else if unit = "ug/L" then Except.ok (moles * ion.mw * 1e6 / get_volume s temperature)
  else if unit = "mg/L" then Except.ok (moles * ion.mw * 1e3 / get_volume s temperature)
  else if unit = "g/L" then Except.ok (moles * ion.mw / get_volume s temperature)
  else if unit = "kg/L" then Except.ok (moles * ion.mw / 1e3 / get_volume s temperature)
  else if unit = "ng" then Except.ok (moles * ion.mw * 1e9)
  else if unit = "ug" then Except.ok (moles * ion.mw * 1e6)
  else if unit = "mg" then Except.ok (moles * ion.mw * 1e3)
  else if unit = "g" then Except.ok (moles * ion.mw)
  else if unit = "kg" then Except.ok (moles * ion.mw / 1e3)
  else if unit = "ppt" then Except.error PyErr.typeError
  else if unit = "ppb" then Except.error PyErr.typeError
  else if unit = "ppm" ∨ unit = "mg/kg" then Except.error PyErr.typeError
  else if unit = "%" then Except.error PyErr.typeError
  else if unit = "g/g" ∨ unit = "mg/mg" ∨ unit = "kg/kg" then Except.error PyErr.typeError
  else Except.error PyErr.invalidUnit

/-- Solution.get_amount (src/pyEQL.py:1753-1825): the first statement
`moles = self.get_solute(solute).get_moles()` raises KeyError for an unknown
solute; then the unit dispatch runs. -/
def get_amount (s : Solution) (solute unit : String) (temperature : ℚ) :
    Except PyErr ℚ :=
  match findComp s.components solute with
  | none => Except.error PyErr.keyError
  | some ion => amount_of s ion unit temperature

/-- Solution.set_amount (src/pyEQL.py:1827-1865).  Each recognized branch
looks up self.components[solute] (KeyError if missing) and overwrites its
mole count.  The 'g/L' branch reads the name `molecular_weight`, which is not
defined anywhere in the method, so Python raises NameError before any
mutation.  An unrecognized unit prints a message and returns None, leaving
all state unchanged.  On any error no new Solution state is produced. -/
def set_amount (s : Solution) (solute : String) (amount : ℚ) (unit : String)
    (temperature : ℚ) : Except PyErr Solution :=
  if unit = "mol" then
    match findComp s.components solute with
    | none => Except.error PyErr.keyError
    | some _ => Except.ok { s with components := setMolesComp s.components solute amount }
  else if unit = "mol/L" then
    match findComp s.components solute with
    | none => Except.error PyErr.keyError
    | some _ =>
      let cs := setMolesComp s.components solute (amount * get_volume s temperature)
      Except.ok { s with components := cs }
  else if unit = "mol/kg" then
    match findComp s.components solute with
    | none => Except.error PyErr.keyError
    | some _ =>
      match get_solvent_mass s with
      | Except.error e => Except.error e
      | Except.ok m =>
        let cs := setMolesComp s.components solute (amount * m)
        Except.ok { s with components := cs }
  else if unit = "g/L" then Except.error PyErr.nameError
  else if unit = "fraction" then
    match findComp s.components solute with
    | none => Except.error PyErr.keyError
    | some _ =>
      match get_moles_water s with
      | Except.error e => Except.error e
      | Except.ok w =>
        let cs := setMolesComp s.components solute (amount * (get_total_moles_solute s + w))
        Except.ok { s with components := cs }
  else if unit = "kg" then
    match findComp s.components solute with
    | none => Except.error PyErr.keyError
    | some ion =>
      let cs := setMolesComp s.components solute (amount / ion.mw * 1000)
      Except.ok { s with components := cs }
  else Except.error PyErr.invalidUnit

/-- Solution.get_ionic_strength (src/pyEQL.py:2133-2156):
0.5 * sum over all components of get_amount(solute, 'mol/L') * valence^2,
where get_amount(solute, 'mol/L') is moles / volume. -/
def get_ionic_strength (s : Solution) : ℚ :=
  s.components.foldl
    (fun acc c => acc + 0.5 * (c.moles / get_volume s 25) * (c.charge : ℚ) ^ 2) 0

/-- The loop of Solution.get_activity (src/pyEQL.py:2054-2060) that finds the
predominant non-solvent solute: running (most, predominant_solute) pair,
updated whenever item != solvent_name and its mole amount strictly exceeds
the running maximum (so ties keep the first-encountered solute). -/
def predomAux (sn : String) : List Solute → ℚ × String → ℚ × String
  | [], acc => acc
  | c :: cs, acc =>
    predomAux sn cs (if c.formula ≠ sn ∧ acc.1 < c.moles then (c.moles, c.formula) else acc)

def predominant_solute (s : Solution) : ℚ × String :=
  predomAux s.solvent_name s.components (0, "")

/-- The unit branches of Solution.add_solute (src/pyEQL.py:1429-1463) as they
behave during Solution.__init__ (the only caller in the claims): 'mol' and
'kg' convert directly; 'mol/kg' divides by the solvent mass of the components
added so far; 'mol/L' evaluates the undefined name `temperature`
(src/pyEQL.py:1451), a NameError; 'g/L' calls self.get_volume() before
self.volume has been assigned, an AttributeError; any other unit prints a
message and returns None without adding anything. -/
def add_solute_init (components : List Solute) (solvent_name : String)
    (d : SoluteDesc) : Except PyErr (List Solute) :=
  if d.unit = "mol" then
    Except.ok (updateComp components (mkSolute d.formula d.mw d.amount d.parameters))
  else if d.unit = "mol/L" then Except.error PyErr.nameError
  else if d.unit = "mol/kg" then
    match findComp components solvent_name with
    | none => Except.error PyErr.keyError
    | some sv =>
      Except.ok (updateComp components
        (mkSolute d.formula d.mw (d.amount * soluteMassKg sv) d.parameters))
  else if d.unit = "g/L" then Except.error PyErr.attributeError
  else if d.unit = "kg" then
    Except.ok (updateComp components (mkSolute d.formula d.mw (d.amount * 1000 / d.mw) d.parameters))
  else Except.ok components

/-- Solution.__init__ (src/pyEQL.py:1346-1365): store the bulk scalars, add
the solvent first, then every solute descriptor in order, then freeze
volume = get_mass() / density * 1000 (liters, density in kg/m3).  A
non-water solvent only logs an error and construction continues. -/
def mkSolution (solutes : List SoluteDesc) (solvent : SoluteDesc)
    (density temperature pressure : ℚ) : Except PyErr Solution := do
  let comps0 ← add_solute_init [] solvent.formula solvent
  let comps ← solutes.foldlM (fun cs d => add_solute_init cs solvent.formula d) comps0
  Except.ok { density := density, temperature := temperature, pressure := pressure,
              components := comps, solvent_name := solvent.formula,
              volume := listMass comps / density * 1000 }

/-- The key-union loop of mix (src/pyEQL.py:879-886): all solute formulas of
Solution1 in order, then those of Solution2 not already present. -/
def mergedKeys (s1 s2 : Solution) : List String :=
  let l1 := s1.components.foldl
    (fun acc c => if c.formula ∈ acc then acc else acc ++ [c.formula]) []
  s2.components.foldl
    (fun acc c => if c.formula ∈ acc then acc else acc ++ [c.formula]) l1

/-- The component-list loop of mix (src/pyEQL.py:888-904): a solute present
in both parents contributes the sum of its mole counts, with name, molecular
weight and custom parameters taken from Solution1; a solute present in one
parent is carried over unchanged.  All entries use the 'mol' unit. -/
def componentDescs (s1 s2 : Solution) (keys : List String) : List SoluteDesc :=
  keys.foldl (fun acc k =>
    match findComp s1.components k, findComp s2.components k with
    | some a, some b =>
      acc ++ [{ formula := a.formula, mw := a.mw, amount := a.moles + b.moles,
                unit := "mol", parameters := a.parameters }]
    | some a, none =>
      acc ++ [{ formula := a.formula, mw := a.mw, amount := a.moles,
                unit := "mol", parameters := a.parameters }]
    | none, some b =>
      acc ++ [{ formula := b.formula, mw := b.mw, amount := b.moles,
                unit := "mol", parameters := b.parameters }]
    | none, none => acc) []

/-- The parameter-copy loop of mix (src/pyEQL.py:910-917): for every blend
component, if it exists in Solution1 its TCPC parameters (when set) are
copied wholesale; otherwise the elif condition reads
Solution2.componenents - a misspelled attribute that no Solution object has -
so Python raises AttributeError as soon as any blend component is missing
from Solution1. -/
def tcpcCopy (blend s1 : Solution) : Except PyErr Solution :=
  (blend.components.map (fun c => c.formula)).foldlM
    (fun (b : Solution) k =>
      match findComp s1.components k with
      | some a =>
        match a.parameters_TCPC with
        | some p => Except.ok { b with components := setTCPCComp b.components k p }
        | none => Except.ok b
      | none => Except.error PyErr.attributeError)
    blend

/-- mix (src/pyEQL.py:851-919).  The two solvent-compatibility checks on
lines 858-862 call logger.error but do not raise or return, so execution
always continues past them.  The blend is built from the summed solvent mass
(molecular weight hard-coded to 18), additive volumes, the derived density
(kg/L converted to kg/m3), and the merged component list; finally the TCPC
parameter-copy loop runs. -/
def mix (s1 s2 : Solution) : Except PyErr Solution := do
  let m1 ← get_solvent_mass s1
  let m2 ← get_solvent_mass s2
  let solvent_mass := m1 + m2
  let mix_vol := get_volume s1 25 + get_volume s2 25
  let mix_dense := (get_mass s1 + get_mass s2) / mix_vol * 1000
  let blend ← mkSolution (componentDescs s1 s2 (mergedKeys s1 s2))
    { formula := s1.solvent_name, mw := 18, amount := solvent_mass,
      unit := "kg", parameters := [] }
    mix_dense 25 101325
  tcpcCopy blend s1

/-! Real-number layer: the temperature-dependent water properties and the
activity / osmotic correlations (sqrt, log, exp, rpow over ℝ).  Temperatures
are passed around as rationals (Python numerals) and coerced where the
formulas need ℝ.  water_dielectric_constant returns None outside its fitted
range; arithmetic on that None raises TypeError in the callers. -/

/-- kelvin (src/pyEQL.py:95-116): Celsius to Kelvin. -/
def kelvin (temp_celsius : ℚ) : ℚ := temp_celsius + 273.15

noncomputable section

/-- Fundamental constants (src/pyEQL.py:60-91), as scipy.constants provides
them (CODATA 2018). -/
def CONST_Na : ℝ := 6.02214076e23

def CONST_R : ℝ := 8.314462618

def CONST_e : ℝ := 1.602176634e-19

def CONST_Eo : ℝ := 8.8541878128e-12

def CONST_F : ℝ := CONST_e * CONST_Na

def CONST_kb : ℝ := 1.380649e-23

def CONST_g : ℝ := 9.80665

/-- water_density (src/pyEQL.py:264-304): Sohnel-Novotny fit, no range
guard. -/
def water_density (temperature : ℚ) : ℝ :=
  999.65 + 0.20438 * (temperature : ℝ) - 6.1744e-2 * (temperature : ℝ) ^ (1.5 : ℝ)

/-- water_dielectric_constant (src/pyEQL.py:449-505): quadratic CRC fit,
returning None when the temperature in Kelvin leaves [273, 372]. -/
def water_dielectric_constant (temperature : ℚ) : Option ℝ :=
  if kelvin temperature < 273 ∨ kelvin temperature > 372 then none
  else some (0.24921e3 + (-0.79069e0) * (kelvin temperature : ℝ)
      + 0.72997e-3 * (kelvin temperature : ℝ) ^ 2)

/-- water_debye_parameter_activity (src/pyEQL.py:514-569): the Stumm-Morgan
constant A = 1.8246e6 * (epsilon * T_K) ^ -1.5.  When the dielectric constant
is None, Python raises TypeError multiplying it. -/
def water_debye_parameter_activity (temperature : ℚ) : Except PyErr ℝ :=
  match water_dielectric_constant temperature with
  | none => Except.error PyErr.typeError
  | some eps => Except.ok (1.8246e6 * (eps * (kelvin temperature : ℝ)) ^ (-(1.5 : ℝ)))

/-- water_debye_parameter_osmotic (src/pyEQL.py:575-606): the A_phi constant
with the 0.71049 correction factor. -/
def water_debye_parameter_osmotic (temperature : ℚ) : Except PyErr ℝ :=
  match water_dielectric_constant temperature with
  | none => Except.error PyErr.typeError
  | some eps =>
    Except.ok (0.71049 * 1 / 3
      * (2 * Real.pi * CONST_Na * water_density temperature / 1000) ^ (0.5 : ℝ)
      * (CONST_e ^ 2 / (eps * CONST_Eo * CONST_kb * (kelvin temperature : ℝ))) ^ (1.5 : ℝ))

/-- get_activity_coefficient_debyehuckel (src/pyEQL.py:926-959):
- A(T) * valence^2 * sqrt(I).  The out-of-range check for I >= 0.005 only
logs a warning.  The valence is a plain number (the buggy dispatcher passes
its temperature argument here), hence ℝ. -/
def get_activity_coefficient_debyehuckel (ionic_strength valence : ℝ)
    (temperature : ℚ) : Except PyErr ℝ :=
  (water_debye_parameter_activity temperature).map
    (fun A => -A * valence ^ 2 * Real.sqrt ionic_strength)

/-- get_activity_coefficient_guntelberg (src/pyEQL.py:961-994):
- A(T) * valence^2 * sqrt(I) / (1 + sqrt(I)); range check logs only. -/
def get_activity_coefficient_guntelberg (ionic_strength valence : ℝ)
    (temperature : ℚ) : Except PyErr ℝ :=
  (water_debye_parameter_activity temperature).map
    (fun A => -A * valence ^ 2 * Real.sqrt ionic_strength
      / (1 + Real.sqrt ionic_strength))

/-- get_activity_coefficient_davies (src/pyEQL.py:996-1029):
- A(T) * valence^2 * (sqrt(I)/(1+sqrt(I)) - 0.2 I); range check logs only. -/
def get_activity_coefficient_davies (ionic_strength valence : ℝ)
    (temperature : ℚ) : Except PyErr ℝ :=
  (water_debye_parameter_activity temperature).map
    (fun A => -A * valence ^ 2
      * (Real.sqrt ionic_strength / (1 + Real.sqrt ionic_strength) - 0.2 * ionic_strength))

/-- get_activity_coefficient_TCPC (src/pyEQL.py:1031-1079):
exp(PDH + SV) with PDH = -|z z_counter| A_phi (sqrt I/(1+b sqrt I) +
(2/b) ln(1+b sqrt I)) and SV = S/T_K * I^(2n) / (nu+ + nu-). -/
def get_activity_coefficient_TCPC (ionic_strength S b n valence counter_valence
    stoich_coeff counter_stoich_coeff : ℝ) (temperature : ℚ) : Except PyErr ℝ :=
  (water_debye_parameter_osmotic temperature).map
    (fun Aphi =>
      let PDH := -|valence * counter_valence| * Aphi
        * (ionic_strength ^ (0.5 : ℝ) / (1 + b * ionic_strength ^ (0.5 : ℝ))
          + 2 / b * Real.log (1 + b * ionic_strength ^ (0.5 : ℝ)))
      let SV := S / (kelvin temperature : ℝ) * ionic_strength ^ (2 * n)
        / (stoich_coeff + counter_stoich_coeff)
      Real.exp (PDH + SV))

/-- get_osmotic_coefficient_TCPC (src/pyEQL.py:1096-1144):
1 - term2 + term3 with term2 = -|z z_counter| A_phi sqrt I/(1+b sqrt I) and
term3 = S/(T_K (nu+ + nu-)) * 2n/(2n+1) * I^(2n). -/
def get_osmotic_coefficient_TCPC (ionic_strength S b n valence counter_valence
    stoich_coeff counter_stoich_coeff : ℝ) (temperature : ℚ) : Except PyErr ℝ :=
  (water_debye_parameter_osmotic temperature).map
    (fun Aphi =>
      let term2 := -|valence * counter_valence| * Aphi
        * ionic_strength ^ (0.5 : ℝ) / (1 + b * ionic_strength ^ (0.5 : ℝ))
      let term3 := S / ((kelvin temperature : ℝ) * (stoich_coeff + counter_stoich_coeff))
        * 2 * n / (2 * n + 1) * ionic_strength ^ (2 * n)
      1 - term2 + term3)

/-- The regime dispatch of Solution.get_activity_coefficient
(src/pyEQL.py:1992-2016) after the components lookup: I <= 0.005 limiting
law, I <= 0.1 Guntelberg, I <= 0.5 Davies, otherwise TCPC when parameters
are set, else print a warning and return the ideal coefficient 1.0.
In the limiting-law branch the source passes `temperature` as the second
positional argument of get_activity_coefficient_debyehuckel - its valence
parameter - so the solute's valence is ignored there and the limiting law's
own temperature stays at its default of 25. -/
def dispatchCoefficient (s : Solution) (ion : Solute) (temperature : ℚ) :
    Except PyErr ℝ :=
  if get_ionic_strength s ≤ 0.005 then
    get_activity_coefficient_debyehuckel (get_ionic_strength s : ℝ) (temperature : ℝ) 25
  else if get_ionic_strength s ≤ 0.1 then
    get_activity_coefficient_guntelberg (get_ionic_strength s : ℝ) (ion.charge : ℝ) temperature
  else if get_ionic_strength s ≤ 0.5 then
    get_activity_coefficient_davies (get_ionic_strength s : ℝ) (ion.charge : ℝ) temperature
  else
    match ion.parameters_TCPC with
    | some p =>
      get_activity_coefficient_TCPC (get_ionic_strength s : ℝ) (p.S : ℝ) (p.b : ℝ)
        (p.n : ℝ) (p.z_plus : ℝ) (p.z_minus : ℝ) (p.nu_plus : ℝ) (p.nu_minus : ℝ)
        temperature
    | none => Except.ok 1

/-- Solution.get_activity_coefficient (src/pyEQL.py:1970-2016): the
components lookup (KeyError if absent) followed by the regime dispatch. -/
def get_activity_coefficient (s : Solution) (solute : String) (temperature : ℚ) :
    Except PyErr ℝ :=
  match findComp s.components solute with
  | none => Except.error PyErr.keyError
  | some ion => dispatchCoefficient s ion temperature

/-- Solution.get_osmotic_coefficient (src/pyEQL.py:2076-2100): TCPC when the
solute's parameters are set, otherwise log an error and return the unit
osmotic coefficient 1. -/
def get_osmotic_coefficient (s : Solution) (solute : String) (temperature : ℚ) :
    Except PyErr ℝ :=
  match findComp s.components solute with
  | none => Except.error PyErr.keyError
  | some ion =>
    match ion.parameters_TCPC with
    | some p =>
      get_osmotic_coefficient_TCPC (get_ionic_strength s : ℝ) (p.S : ℝ) (p.b : ℝ)
        (p.n : ℝ) (p.z_plus : ℝ) (p.z_minus : ℝ) (p.nu_plus : ℝ) (p.nu_minus : ℝ)
        temperature
    | none => Except.ok 1

/-- Solution.get_water_activity (src/pyEQL.py:2102-2131):
exp(- phi * 0.018015 * total moles of solute), phi based on the given
solute. -/
def get_water_activity (s : Solution) (solute : String) (temperature : ℚ) :
    Except PyErr ℝ :=
  (get_osmotic_coefficient s solute temperature).map
    (fun phi => Real.exp (-phi * 0.018015 * (get_total_moles_solute s : ℝ)))

/-- Solution.get_activity (src/pyEQL.py:2019-2074).  For 'H2O' (or 'water'):
find the predominant non-solvent solute; when its mole count is positive the
water activity based on it is returned, otherwise the activity is exactly 1.
For any other species: activity coefficient times molar concentration
(get_amount in mol/L). -/
def get_activity (s : Solution) (solute : String) (temperature : ℚ) :
    Except PyErr ℝ :=
  if solute = "H2O" ∨ solute = "water" then
    let pm := predominant_solute s
    if 0 < pm.1 then get_water_activity s pm.2 temperature
    else Except.ok 1
  else
    match get_activity_coefficient s solute temperature with
    | Except.error e => Except.error e
    | Except.ok gamma =>
      match get_amount s solute "mol/L" temperature with
      | Except.error e => Except.error e
      | Except.ok conc => Except.ok (gamma * (conc : ℝ))

end

/-! Concrete example Solutions.  Each is written as the explicit state the
Solution constructor produces (moles of the 1 kg water solvent = 1000/18 =
500/9; volume = total mass in kg, numerically, at density 1000 kg/m3); the
lemmas mkSolution_sol* below verify each against the constructor. -/

def waterSolute : Solute :=
  { formula := "H2O", mw := 18, moles := 500/9, charge := 0,
    parameters := [], parameters_TCPC := none }

def naSolute (m : ℚ) : Solute :=
  { formula := "Na+", mw := 23, moles := m, charge := 1,
    parameters := [], parameters_TCPC := none }

def clSolute (m : ℚ) : Solute :=
  { formula := "Cl-", mw := 35, moles := m, charge := -1,
    parameters := [], parameters_TCPC := none }

def d2oSolute : Solute :=
  { formula := "D2O", mw := 20, moles := 50, charge := 0,
    parameters := [], parameters_TCPC := none }

def waterDesc : SoluteDesc :=
  { formula := "H2O", mw := 18, amount := 1, unit := "kg", parameters := [] }

def d2oDesc : SoluteDesc :=
  { formula := "D2O", mw := 20, amount := 1, unit := "kg", parameters := [] }

def molDesc (f : String) (mw m : ℚ) : SoluteDesc :=
  { formula := f, mw := mw, amount := m, unit := "mol", parameters := [] }

/-- 0.006 mol Na+ in 1 kg water: ionic strength 1500/500069, about 0.003. -/
def sol1 : Solution :=
  { density := 1000, temperature := 25, pressure := 101325,
    components := [waterSolute, naSolute (3/500)], solvent_name := "H2O",
    volume := 500069/500000 }

/-- 0.04 mol Na+ in 1 kg water: ionic strength 500/25023, about 0.02. -/
def sol2 : Solution :=
  { density := 1000, temperature := 25, pressure := 101325,
    components := [waterSolute, naSolute (1/25)], solvent_name := "H2O",
    volume := 25023/25000 }

/-- 2 mol Na+ in 1 kg water: ionic strength 500/523, about 0.956. -/
def sol3 : Solution :=
  { density := 1000, temperature := 25, pressure := 101325,
    components := [waterSolute, naSolute 2], solvent_name := "H2O",
    volume := 523/500 }

/-- The spec's example composition: 0.0115 mol Na+ and 0.0175 mol Cl- in
1 kg water. -/
def solW : Solution :=
  { density := 1000, temperature := 25, pressure := 101325,
    components := [waterSolute, naSolute (23/2000), clSolute (7/400)],
    solvent_name := "H2O", volume := 1000877/1000000 }

/-- 0.1 mol Na+ in 1 kg water. -/
def solA : Solution :=
  { density := 1000, temperature := 25, pressure := 101325,
    components := [waterSolute, naSolute (1/10)], solvent_name := "H2O",
    volume := 10023/10000 }

/-- 0.1 mol Cl- in 1 kg water. -/
def solB : Solution :=
  { density := 1000, temperature := 25, pressure := 101325,
    components := [waterSolute, clSolute (1/10)], solvent_name := "H2O",
    volume := 2007/2000 }

/-- 0.1 mol Na+ in 1 kg of the non-water solvent D2O. -/
def solD : Solution :=
  { density := 1000, temperature := 25, pressure := 101325,
    components := [d2oSolute, naSolute (1/10)], solvent_name := "D2O",
    volume := 10023/10000 }

/-- The Solution produced by the all-defaults constructor:
Solution([]), i.e. solvent descriptor ['H2O', 18, 1], density 1000. -/
def defaultSolution : Solution :=
  { density := 1000, temperature := 25, pressure := 101325,
    components := [waterSolute], solvent_name := "H2O", volume := 1 }

/-- Whether a modelled Python call completed without an error. -/
def exceptIsOk : Except PyErr Solution → Bool
  | Except.ok _ => true
  | Except.error _ => false

end PyEQL

namespace PyEQL

/-! Bridge and bookkeeping lemmas. -/

theorem charge_H2O : compute_charge "H2O" = 0 := by decide

theorem charge_D2O : compute_charge "D2O" = 0 := by decide

theorem charge_Na : compute_charge "Na+" = 1 := by decide

theorem charge_Cl : compute_charge "Cl-" = -1 := by decide

/-- get_amount is the components lookup followed by the unit dispatch. -/
theorem get_amount_eq (s : Solution) (n u : String) (t : ℚ) (ion : Solute)
    (h : findComp s.components n = some ion) :
    get_amount s n u t = amount_of s ion u t := by
  unfold get_amount
  rw [h]

/-- get_activity_coefficient is the components lookup followed by the regime
dispatch. -/
theorem get_activity_coefficient_eq (s : Solution) (n : String) (t : ℚ)
    (ion : Solute) (h : findComp s.components n = some ion) :
    get_activity_coefficient s n t = dispatchCoefficient s ion t := by
  unfold get_activity_coefficient
  rw [h]

/-- In the source get_solvent_mass is literally
get_amount(self.solvent_name, 'kg', self.temperature); the model's direct
definition agrees with that route. -/
theorem get_solvent_mass_eq_get_amount (s : Solution) :
    get_solvent_mass s = get_amount s s.solvent_name "kg" s.temperature := by
  cases h : findComp s.components s.solvent_name <;>
    simp [get_solvent_mass, get_amount, h, amount_of, soluteMassKg]

/-- In the source get_moles_water is literally
get_amount(self.solvent_name, 'mol', self.temperature). -/
theorem get_moles_water_eq_get_amount (s : Solution) :
    get_moles_water s = get_amount s s.solvent_name "mol" s.temperature := by
  cases h : findComp s.components s.solvent_name <;>
    simp [get_moles_water, get_amount, h, amount_of]

/-- Overwriting the moles of solute n updates the looked-up entry for n. -/
theorem findComp_setMolesComp_self (cs : List Solute) (n : String) (m : ℚ)
    (ion : Solute) (h : findComp cs n = some ion) :
    findComp (setMolesComp cs n m) n = some { ion with moles := m } := by
  induction cs with
  | nil => simp [findComp] at h
  | cons c cs ih =>
    by_cases hc : c.formula = n
    · simp [findComp, hc] at h
      subst h
      simp [setMolesComp, findComp, hc]
    · simp [findComp, hc] at h
      simp [setMolesComp, findComp, hc, ih h]

/-- Overwriting the moles of solute n leaves every other lookup unchanged. -/
theorem findComp_setMolesComp_ne (cs : List Solute) (n : String) (m : ℚ)
    (n' : String) (h : n' ≠ n) :
    findComp (setMolesComp cs n m) n' = findComp cs n' := by
  induction cs with
  | nil => simp [setMolesComp]
  | cons c cs ih =>
    by_cases hc : c.formula = n
    · subst hc
      have hcn : c.formula ≠ n' := fun hh => h hh.symm
      simp [setMolesComp, findComp, hcn]
    · simp only [setMolesComp, if_neg hc, findComp]
      by_cases hc' : c.formula = n'
      · simp [hc']
      · simp [hc', ih]

/-! Per-unit unfoldings of the conversion engine (each one is the
corresponding source branch, exposed as an equation). -/

theorem amount_of_mol (s : Solution) (ion : Solute) (t : ℚ) :
    amount_of s ion "mol" t = Except.ok ion.moles := rfl

theorem amount_of_molperL (s : Solution) (ion : Solute) (t : ℚ) :
    amount_of s ion "mol/L" t = Except.ok (ion.moles / get_volume s t) := rfl

theorem amount_of_kg (s : Solution) (ion : Solute) (t : ℚ) :
    amount_of s ion "kg" t = Except.ok (ion.moles * ion.mw / 1e3) := rfl

theorem amount_of_molperkg (s : Solution) (ion : Solute) (t : ℚ) (M : ℚ)
    (h : get_solvent_mass s = Except.ok M) :
    amount_of s ion "mol/kg" t = Except.ok (ion.moles / M) := by
  have e : amount_of s ion "mol/kg" t =
      (match get_solvent_mass s with
       | Except.error e => Except.error e
       | Except.ok m => Except.ok (ion.moles / m)) := rfl
  rw [e, h]

theorem amount_of_fraction (s : Solution) (ion : Solute) (t : ℚ) (W : ℚ)
    (h : get_moles_water s = Except.ok W) :
    amount_of s ion "fraction" t =
      Except.ok (ion.moles / (get_total_moles_solute s + W)) := by
  have e : amount_of s ion "fraction" t =
      (match get_moles_water s with
       | Except.error e => Except.error e
       | Except.ok w => Except.ok (ion.moles / (get_total_moles_solute s + w))) := rfl
  rw [e, h]

theorem set_amount_mol (s : Solution) (n : String) (v t : ℚ) (ion : Solute)
    (h : findComp s.components n = some ion) :
    set_amount s n v "mol" t =
      Except.ok { s with components := setMolesComp s.components n v } := by
  have e : set_amount s n v "mol" t =
      (match findComp s.components n with
       | none => Except.error PyErr.keyError
       | some _ => Except.ok { s with components := setMolesComp s.components n v }) := rfl
  rw [e, h]

theorem set_amount_molperL (s : Solution) (n : String) (v t : ℚ) (ion : Solute)
    (h : findComp s.components n = some ion) :
    set_amount s n v "mol/L" t =
      Except.ok { s with components := setMolesComp s.components n (v * get_volume s t) } := by
  have e : set_amount s n v "mol/L" t =
      (match findComp s.components n with
       | none => Except.error PyErr.keyError
       | some _ => Except.ok { s with components := setMolesComp s.components n (v * get_volume s t) }) := rfl
  rw [e, h]

theorem set_amount_molperkg (s : Solution) (n : String) (v t : ℚ) (ion : Solute)
    (M : ℚ) (h : findComp s.components n = some ion)
    (hm : get_solvent_mass s = Except.ok M) :
    set_amount s n v "mol/kg" t =
      Except.ok { s with components := setMolesComp s.components n (v * M) } := by
  have e : set_amount s n v "mol/kg" t =
      (match findComp s.components n with
       | none => Except.error PyErr.keyError
       | some _ =>
         match get_solvent_mass s with
         | Except.error e => Except.error e
         | Except.ok m =>
           Except.ok { s with components := setMolesComp s.components n (v * m) }) := rfl
  rw [e, h, hm]

theorem set_amount_gperL (s : Solution) (n : String) (v t : ℚ) :
    set_amount s n v "g/L" t = Except.error PyErr.nameError := rfl

theorem set_amount_fraction (s : Solution) (n : String) (v t : ℚ) (ion : Solute)
    (W : ℚ) (h : findComp s.components n = some ion)
    (hw : get_moles_water s = Except.ok W) :
    set_amount s n v "fraction" t =
      Except.ok { s with components := setMolesComp s.components n (v * (get_total_moles_solute s + W)) } := by
  have e : set_amount s n v "fraction" t =
      (match findComp s.components n with
       | none => Except.error PyErr.keyError
       | some _ =>
         match get_moles_water s with
         | Except.error e => Except.error e
         | Except.ok w =>
           Except.ok { s with components := setMolesComp s.components n (v * (get_total_moles_solute s + w)) }) := rfl
  rw [e, h, hw]

theorem set_amount_kg (s : Solution) (n : String) (v t : ℚ) (ion : Solute)
    (h : findComp s.components n = some ion) :
    set_amount s n v "kg" t =
      Except.ok { s with components := setMolesComp s.components n (v / ion.mw * 1000) } := by
  have e : set_amount s n v "kg" t =
      (match findComp s.components n with
       | none => Except.error PyErr.keyError
       | some ion =>
         Except.ok { s with components := setMolesComp s.components n (v / ion.mw * 1000) }) := rfl
  rw [e, h]

/-- set_amount never touches the frozen volume. -/
theorem get_volume_setMoles (s : Solution) (n : String) (m t : ℚ) :
    get_volume { s with components := setMolesComp s.components n m } t =
      get_volume s t := rfl

/-- Overwriting a non-solvent solute leaves the solvent mass unchanged. -/
theorem get_solvent_mass_setMoles (s : Solution) (n : String) (m : ℚ)
    (h : n ≠ s.solvent_name) :
    get_solvent_mass { s with components := setMolesComp s.components n m } =
      get_solvent_mass s := by
  unfold get_solvent_mass
  rw [show ({ s with components := setMolesComp s.components n m } : Solution).solvent_name
        = s.solvent_name from rfl,
      findComp_setMolesComp_ne _ _ _ _ (fun hh => h hh.symm)]

/-! The Debye parameter at 25 degrees Celsius. -/

theorem wdpa_25 : water_debye_parameter_activity 25 =
    Except.ok ((1.8246e6 : ℝ) *
      (((249.21 : ℝ) - 0.79069 * 298.15 + 0.72997e-3 * 298.15 ^ 2) * 298.15)
        ^ (-(1.5 : ℝ))) := by
  unfold water_debye_parameter_activity water_dielectric_constant
  rw [if_neg (by norm_num [kelvin])]
  norm_num [kelvin]

theorem A25_pos : (0 : ℝ) <
    (1.8246e6 : ℝ) *
      (((249.21 : ℝ) - 0.79069 * 298.15 + 0.72997e-3 * 298.15 ^ 2) * 298.15)
        ^ (-(1.5 : ℝ)) := by
  have hb : (0 : ℝ) <
      ((249.21 : ℝ) - 0.79069 * 298.15 + 0.72997e-3 * 298.15 ^ 2) * 298.15 := by
    norm_num
  have hr := Real.rpow_pos_of_pos hb (-(1.5 : ℝ))
  nlinarith

/-! Properties of the predominant-solute fold. -/

theorem predomAux_fst_le (sn : String) (l : List Solute) :
    ∀ acc : ℚ × String, acc.1 ≤ (predomAux sn l acc).1 := by
  induction l with
  | nil => intro acc; simp [predomAux]
  | cons c cs ih =>
    intro acc
    show acc.1 ≤ (predomAux sn cs
      (if c.formula ≠ sn ∧ acc.1 < c.moles then (c.moles, c.formula) else acc)).1
    by_cases hc : c.formula ≠ sn ∧ acc.1 < c.moles
    · rw [if_pos hc]
      exact le_trans (le_of_lt hc.2) (ih (c.moles, c.formula))
    · rw [if_neg hc]
      exact ih acc

theorem predomAux_ub (sn : String) (l : List Solute) :
    ∀ acc : ℚ × String, ∀ c ∈ l, c.formula ≠ sn →
      c.moles ≤ (predomAux sn l acc).1 := by
  induction l with
  | nil => intro acc c hc; simp at hc
  | cons d cs ih =>
    intro acc c hc hn
    have hg : predomAux sn (d :: cs) acc = predomAux sn cs
        (if d.formula ≠ sn ∧ acc.1 < d.moles then (d.moles, d.formula) else acc) := rfl
    rw [hg]
    rcases List.mem_cons.mp hc with hd | hmem
    · subst hd
      by_cases hcond : c.formula ≠ sn ∧ acc.1 < c.moles
      · rw [if_pos hcond]
        exact le_trans (le_refl _) (predomAux_fst_le sn cs (c.moles, c.formula))
      · rw [if_neg hcond]
        have : ¬ acc.1 < c.moles := fun hlt => hcond ⟨hn, hlt⟩
        exact le_trans (not_lt.mp this) (predomAux_fst_le sn cs acc)
    · by_cases hcond : d.formula ≠ sn ∧ acc.1 < d.moles
      · rw [if_pos hcond]
        exact ih (d.moles, d.formula) c hmem hn
      · rw [if_neg hcond]
        exact ih acc c hmem hn

theorem predomAux_id (sn : String) (l : List Solute) :
    ∀ acc : ℚ × String, (∀ c ∈ l, ¬(c.formula ≠ sn ∧ acc.1 < c.moles)) →
      predomAux sn l acc = acc := by
  induction l with
  | nil => intro acc _; rfl
  | cons c cs ih =>
    intro acc h
    have hg : predomAux sn (c :: cs) acc = predomAux sn cs
        (if c.formula ≠ sn ∧ acc.1 < c.moles then (c.moles, c.formula) else acc) := rfl
    rw [hg, if_neg (h c (List.mem_cons_self c cs))]
    exact ih acc (fun d hd => h d (List.mem_cons_of_mem c hd))

/-- The fold either never updates its accumulator, or it reports the moles
and formula of the first non-solvent entry that attains the final maximum:
every earlier non-solvent entry has strictly smaller moles (the strict
comparison in the loop is what makes ties keep the first-encountered entry). -/
theorem predomAux_first (sn : String) (l : List Solute) :
    ∀ acc : ℚ × String,
      predomAux sn l acc = acc ∨
      ∃ i, ∃ h : i < l.length,
        (l.get ⟨i, h⟩).formula ≠ sn ∧
        (l.get ⟨i, h⟩).moles = (predomAux sn l acc).1 ∧
        (l.get ⟨i, h⟩).formula = (predomAux sn l acc).2 ∧
        acc.1 < (predomAux sn l acc).1 ∧
        ∀ j, ∀ hj : j < l.length, j < i → (l.get ⟨j, hj⟩).formula ≠ sn →
          (l.get ⟨j, hj⟩).moles < (predomAux sn l acc).1 := by
  induction l with
  | nil => intro acc; exact Or.inl rfl
  | cons c cs ih =>
    intro acc
    have hg : predomAux sn (c :: cs) acc = predomAux sn cs
        (if c.formula ≠ sn ∧ acc.1 < c.moles then (c.moles, c.formula) else acc) := rfl
    by_cases hcond : c.formula ≠ sn ∧ acc.1 < c.moles
    · rw [if_pos hcond] at hg
      rcases ih (c.moles, c.formula) with heq | ⟨i, hi, h1, h2, h3, h4, h5⟩
      · refine Or.inr ⟨0, Nat.succ_pos _, ?_, ?_, ?_, ?_, ?_⟩
        · simpa using hcond.1
        · rw [hg, heq]; simp
        · rw [hg, heq]; simp
        · rw [hg, heq]; exact hcond.2
        · intro j hj hji; omega
      · refine Or.inr ⟨i + 1, Nat.succ_lt_succ hi, ?_, ?_, ?_, ?_, ?_⟩
        · simpa using h1
        · rw [hg]; simpa using h2
        · rw [hg]; simpa using h3
        · rw [hg]; exact lt_trans hcond.2 h4
        · intro j hj hji hjn
          rw [hg]
          match j, hj with
          | 0, _ =>
            simpa using h4
          | j' + 1, hj =>
            have hj' : j' < cs.length := Nat.lt_of_succ_lt_succ hj
            have hji' : j' < i := Nat.lt_of_succ_lt_succ hji
            simpa using h5 j' hj' hji' (by simpa using hjn)
    · rw [if_neg hcond] at hg
      rcases ih acc with heq | ⟨i, hi, h1, h2, h3, h4, h5⟩
      · exact Or.inl (by rw [hg, heq])
      · refine Or.inr ⟨i + 1, Nat.succ_lt_succ hi, ?_, ?_, ?_, ?_, ?_⟩
        · simpa using h1
        · rw [hg]; simpa using h2
        · rw [hg]; simpa using h3
        · rw [hg]; exact h4
        · intro j hj hji hjn
          rw [hg]
          match j, hj with
          | 0, _ =>
            have hcn : c.formula ≠ sn := by simpa using hjn
            have : ¬ acc.1 < c.moles := fun hlt => hcond ⟨hcn, hlt⟩
            have hle : c.moles ≤ acc.1 := not_lt.mp this
            simpa using lt_of_le_of_lt hle h4
          | j' + 1, hj =>
            have hj' : j' < cs.length := Nat.lt_of_succ_lt_succ hj
            have hji' : j' < i := Nat.lt_of_succ_lt_succ hji
            simpa using h5 j' hj' hji' (by simpa using hjn)

/-! Each concrete Solution above is exactly the state the constructor
produces from its descriptor lists. -/

theorem mkSolution_sol1 :
    mkSolution [molDesc "Na+" 23 (3/500)] waterDesc 1000 25 101325 = Except.ok sol1 := by
  simp [mkSolution, add_solute_init, mkSolute, updateComp, molDesc, waterDesc,
    listMass, List.foldlM, List.foldl, soluteMassKg, bind, Except.bind, pure,
    Except.pure, charge_H2O, charge_Na, sol1, waterSolute, naSolute]
  norm_num

theorem mkSolution_sol2 :
    mkSolution [molDesc "Na+" 23 (1/25)] waterDesc 1000 25 101325 = Except.ok sol2 := by
  simp [mkSolution, add_solute_init, mkSolute, updateComp, molDesc, waterDesc,
    listMass, List.foldlM, List.foldl, soluteMassKg, bind, Except.bind, pure,
    Except.pure, charge_H2O, charge_Na, sol2, waterSolute, naSolute]
  norm_num

theorem mkSolution_sol3 :
    mkSolution [molDesc "Na+" 23 2] waterDesc 1000 25 101325 = Except.ok sol3 := by
  simp [mkSolution, add_solute_init, mkSolute, updateComp, molDesc, waterDesc,
    listMass, List.foldlM, List.foldl, soluteMassKg, bind, Except.bind, pure,
    Except.pure, charge_H2O, charge_Na, sol3, waterSolute, naSolute]
  norm_num

theorem mkSolution_solW :
    mkSolution [molDesc "Na+" 23 (23/2000), molDesc "Cl-" 35 (7/400)] waterDesc
      1000 25 101325 = Except.ok solW := by
  simp [mkSolution, add_solute_init, mkSolute, updateComp, molDesc, waterDesc,
    listMass, List.foldlM, List.foldl, soluteMassKg, bind, Except.bind, pure,
    Except.pure, charge_H2O, charge_Na, charge_Cl, solW, waterSolute, naSolute, clSolute]
  norm_num

theorem mkSolution_solA :
    mkSolution [molDesc "Na+" 23 (1/10)] waterDesc 1000 25 101325 = Except.ok solA := by
  simp [mkSolution, add_solute_init, mkSolute, updateComp, molDesc, waterDesc,
    listMass, List.foldlM, List.foldl, soluteMassKg, bind, Except.bind, pure,
    Except.pure, charge_H2O, charge_Na, solA, waterSolute, naSolute]
  norm_num

theorem mkSolution_solB :
    mkSolution [molDesc "Cl-" 35 (1/10)] waterDesc 1000 25 101325 = Except.ok solB := by
  simp [mkSolution, add_solute_init, mkSolute, updateComp, molDesc, waterDesc,
    listMass, List.foldlM, List.foldl, soluteMassKg, bind, Except.bind, pure,
    Except.pure, charge_H2O, charge_Cl, solB, waterSolute, clSolute]
  norm_num

theorem mkSolution_solD :
    mkSolution [molDesc "Na+" 23 (1/10)] d2oDesc 1000 25 101325 = Except.ok solD := by
  simp [mkSolution, add_solute_init, mkSolute, updateComp, molDesc, d2oDesc,
    listMass, List.foldlM, List.foldl, soluteMassKg, bind, Except.bind, pure,
    Except.pure, charge_D2O, charge_Na, solD, d2oSolute, naSolute]
  norm_num

end PyEQL

namespace PyEQL

/-! Claim theorems. -/

/-- C10: add_solute called without a unit argument interprets the amount as
kilograms (moles = amount * 1000 / molecular weight), and the Solution built
with the default solvent descriptor ['H2O', 18, 1] and no solutes contains
exactly 1 kg of water: get_solvent_mass() returns 1. -/
theorem C10_default_unit_is_kg :
    (∀ (comps : List Solute) (sn f : String) (mw amount : ℚ)
       (params : List (String × ℚ)),
      add_solute_init comps sn
          { formula := f, mw := mw, amount := amount, unit := "kg", parameters := params }
        = Except.ok (updateComp comps (mkSolute f mw (amount * 1000 / mw) params))) ∧
    mkSolution [] waterDesc 1000 25 101325 = Except.ok defaultSolution ∧
    get_solvent_mass defaultSolution = Except.ok 1 := by
  refine ⟨fun comps sn f mw amount params => rfl, ?_, ?_⟩
  · simp [mkSolution, add_solute_init, mkSolute, updateComp, waterDesc, listMass,
      List.foldlM, List.foldl, soluteMassKg, bind, Except.bind, pure, Except.pure,
      charge_H2O, defaultSolution, waterSolute]
    norm_num
  · simp [get_solvent_mass, defaultSolution, waterSolute, findComp, soluteMassKg]
    norm_num

/-- C8: for any Solution and any present solute, requesting the unsupported
unit 'lbs' from get_amount or set_amount takes the invalid-unit error path:
no numeric result and no new Solution state is produced, so the mole count
and all other state are unchanged. -/
theorem C8_invalid_unit_path (s : Solution) (n : String) (v t : ℚ) (ion : Solute)
    (hfind : findComp s.components n = some ion) :
    get_amount s n "lbs" t = Except.error PyErr.invalidUnit ∧
    set_amount s n v "lbs" t = Except.error PyErr.invalidUnit := by
  constructor
  · rw [get_amount_eq s n "lbs" t ion hfind]
    rfl
  · rfl

/-- C8 witness at the concrete solution sol1 and its solute Na+. -/
theorem C8_invalid_unit_path_witness :
    get_amount sol1 "Na+" "lbs" 25 = Except.error PyErr.invalidUnit ∧
    set_amount sol1 "Na+" 1 "lbs" 25 = Except.error PyErr.invalidUnit :=
  C8_invalid_unit_path sol1 "Na+" 1 25 (naSolute (3/500)) rfl

/-- C5: the claim says every mass-fraction unit ('ppt', 'ppb', 'ppm', '%',
'g/g') returns the solute's mass over the total solution mass at the unit's
scale; the code instead raises TypeError on all of them, because the source
multiplies the uncalled bound method self.get_mass (missing parentheses)
by 1e3.  Evaluated at the concrete solution solW and its solute Na+. -/
theorem C5_mass_fraction_units_type_error :
    get_amount solW "Na+" "ppt" 25 = Except.error PyErr.typeError ∧
    get_amount solW "Na+" "ppb" 25 = Except.error PyErr.typeError ∧
    get_amount solW "Na+" "ppm" 25 = Except.error PyErr.typeError ∧
    get_amount solW "Na+" "mg/kg" 25 = Except.error PyErr.typeError ∧
    get_amount solW "Na+" "%" 25 = Except.error PyErr.typeError ∧
    get_amount solW "Na+" "g/g" 25 = Except.error PyErr.typeError :=
  ⟨rfl, rfl, rfl, rfl, rfl, rfl⟩

/-- C7: when the ionic strength exceeds 0.5 and the solute has no TCPC
correlation parameters, get_activity_coefficient returns the ideal
coefficient 1.0 (after printing a degraded-accuracy warning) and never
raises: the call completes with Except.ok. -/
theorem C7_ideal_fallback (s : Solution) (n : String) (t : ℚ) (ion : Solute)
    (hfind : findComp s.components n = some ion)
    (hI : 0.5 < get_ionic_strength s)
    (hp : ion.parameters_TCPC = none) :
    get_activity_coefficient s n t = Except.ok 1 := by
  rw [get_activity_coefficient_eq s n t ion hfind]
  unfold dispatchCoefficient
  rw [if_neg (not_le.mpr (lt_trans (by norm_num) hI)),
      if_neg (not_le.mpr (lt_trans (by norm_num) hI)),
      if_neg (not_le.mpr hI), hp]

/-- C7 witness: 2 mol Na+ in 1 kg water has I = 500/523 > 0.5 and no TCPC
parameters, and the dispatcher returns exactly 1. -/
theorem C7_ideal_fallback_witness :
    get_activity_coefficient sol3 "Na+" 25 = Except.ok 1 :=
  C7_ideal_fallback sol3 "Na+" 25 (naSolute 2) rfl
    (by norm_num [get_ionic_strength, get_volume, sol3, waterSolute, naSolute,
      List.foldl])
    rfl

/-- C6: with 0.005 < I <= 0.1 the dispatcher returns the Guntelberg value
-A(T) z^2 sqrt(I)/(1+sqrt(I)) at the solute's valence; with 0.1 < I <= 0.5
it returns the Davies value -A(T) z^2 (sqrt(I)/(1+sqrt(I)) - 0.2 I); the
boundary points select the lower regime: I = 0.1 and I = 0.5 are inside the
two ranges above (inclusive upper bounds), and at I = 0.005 the dispatcher
takes the limiting-law branch (which the source calls with its temperature
argument in the valence position and 25 as the temperature). -/
theorem C6_regime_dispatch (s : Solution) (n : String) (t : ℚ) (ion : Solute)
    (hfind : findComp s.components n = some ion) :
    (0.005 < get_ionic_strength s → get_ionic_strength s ≤ 0.1 →
      get_activity_coefficient s n t =
        get_activity_coefficient_guntelberg ((get_ionic_strength s : ℚ) : ℝ)
          ((ion.charge : ℤ) : ℝ) t) ∧
    (0.1 < get_ionic_strength s → get_ionic_strength s ≤ 0.5 →
      get_activity_coefficient s n t =
        get_activity_coefficient_davies ((get_ionic_strength s : ℚ) : ℝ)
          ((ion.charge : ℤ) : ℝ) t) ∧
    (get_ionic_strength s = 0.005 →
      get_activity_coefficient s n t =
        get_activity_coefficient_debyehuckel ((get_ionic_strength s : ℚ) : ℝ)
          ((t : ℚ) : ℝ) 25) := by
  rw [get_activity_coefficient_eq s n t ion hfind]
  unfold dispatchCoefficient
  refine ⟨fun h1 h2 => ?_, fun h1 h2 => ?_, fun h0 => ?_⟩
  · rw [if_neg (not_le.mpr h1), if_pos h2]
  · rw [if_neg (not_le.mpr (lt_trans (by norm_num) h1)), if_neg (not_le.mpr h1),
      if_pos h2]
  · rw [if_pos (le_of_eq h0)]

/-- C6 witness: 0.04 mol Na+ in 1 kg water has I = 500/25023, inside
(0.005, 0.1], and the dispatcher equals the Guntelberg function at the
solute's valence. -/
theorem C6_regime_dispatch_witness :
    get_activity_coefficient sol2 "Na+" 25 =
      get_activity_coefficient_guntelberg ((get_ionic_strength sol2 : ℚ) : ℝ)
        (((naSolute (1/25)).charge : ℤ) : ℝ) 25 :=
  (C6_regime_dispatch sol2 "Na+" 25 (naSolute (1/25)) rfl).1
    (by norm_num [get_ionic_strength, get_volume, sol2, waterSolute, naSolute,
      List.foldl])
    (by norm_num [get_ionic_strength, get_volume, sol2, waterSolute, naSolute,
      List.foldl])

end PyEQL

namespace PyEQL

/-- C1: the claim says that for I <= 0.005 the dispatcher returns the
Debye-Huckel limiting-law value -A(T) z^2 sqrt(I) computed from the solute's
valence, i.e. get_activity_coefficient_debyehuckel evaluated at the solute's
valence and the same temperature.  The source instead passes `temperature` as
the second positional argument - the valence slot - leaving the limiting law's
own temperature at its default 25 (src/pyEQL.py:1997).  At the concrete
solution sol1 (Na+ with valence 1, I = 1500/500069, about 0.003, T = 25) the
dispatcher therefore equals the limiting law at valence 25 and differs from
the claimed value at valence 1. -/
theorem C1_limiting_law_valence_bug :
    get_activity_coefficient sol1 "Na+" 25 =
      get_activity_coefficient_debyehuckel ((get_ionic_strength sol1 : ℚ) : ℝ)
        (((25 : ℚ) : ℚ) : ℝ) 25 ∧
    get_activity_coefficient sol1 "Na+" 25 ≠
      get_activity_coefficient_debyehuckel ((get_ionic_strength sol1 : ℚ) : ℝ)
        (((naSolute (3/500)).charge : ℤ) : ℝ) 25 := by
  have hI : get_ionic_strength sol1 ≤ 0.005 := by
    norm_num [get_ionic_strength, get_volume, sol1, waterSolute, naSolute, List.foldl]
  have hIpos : (0 : ℚ) < get_ionic_strength sol1 := by
    norm_num [get_ionic_strength, get_volume, sol1, waterSolute, naSolute, List.foldl]
  constructor
  · rw [get_activity_coefficient_eq sol1 "Na+" 25 (naSolute (3/500)) rfl]
    unfold dispatchCoefficient
    rw [if_pos hI]
  · rw [get_activity_coefficient_eq sol1 "Na+" 25 (naSolute (3/500)) rfl]
    unfold dispatchCoefficient
    rw [if_pos hI]
    unfold get_activity_coefficient_debyehuckel
    rw [wdpa_25]
    simp only [Except.map, ne_eq, Except.ok.injEq]
    have hA := A25_pos
    have hs : 0 < Real.sqrt ((get_ionic_strength sol1 : ℚ) : ℝ) :=
      Real.sqrt_pos.mpr (by exact_mod_cast hIpos)
    intro heq
    norm_num [naSolute] at heq
    nlinarith [mul_pos hA hs]

end PyEQL

namespace PyEQL

/-- C2 counterexample: for the supported unit 'fraction' the claimed
round-trip fails: at sol3 (2 mol Na+ in 1 kg water) set_amount('Na+', 1/2,
'fraction') followed by get_amount('Na+', 'fraction') returns 259/759, not
1/2 (setting the amount changes the mole-fraction denominator), far outside
any floating-point tolerance. -/
theorem C2_fraction_roundtrip_fails :
    (set_amount sol3 "Na+" (1/2) "fraction" 25).bind
      (fun s2 => get_amount s2 "Na+" "fraction" 25) = Except.ok (259/759) ∧
    (259/759 : ℚ) ≠ 1/2 := by
  constructor
  · simp [set_amount, get_amount, amount_of, get_moles_water,
      get_total_moles_solute, setMolesComp, findComp, get_volume, sol3,
      waterSolute, naSolute, List.foldl, Except.bind]
    norm_num
  · norm_num

/-- C2 amended: set_amount is the exact inverse of get_amount for the units
'mol', 'mol/L' (nonzero frozen volume), 'mol/kg' (non-solvent solute and
nonzero solvent mass) and 'kg' (nonzero molecular weight); for 'g/L' the
source raises NameError (it reads the undefined name molecular_weight), so no
round trip happens, and for 'fraction' the round trip returns a different
value (see the counterexample). -/
theorem C2_roundtrip_amended (s : Solution) (n : String) (v t : ℚ)
    (ion sv : Solute)
    (hfind : findComp s.components n = some ion)
    (hsv : findComp s.components s.solvent_name = some sv)
    (hns : n ≠ s.solvent_name)
    (hvol : s.volume ≠ 0)
    (hM : soluteMassKg sv ≠ 0)
    (hmw : ion.mw ≠ 0) :
    (set_amount s n v "mol" t).bind (fun s2 => get_amount s2 n "mol" t)
      = Except.ok v ∧
    (set_amount s n v "mol/L" t).bind (fun s2 => get_amount s2 n "mol/L" t)
      = Except.ok v ∧
    (set_amount s n v "mol/kg" t).bind (fun s2 => get_amount s2 n "mol/kg" t)
      = Except.ok v ∧
    (set_amount s n v "kg" t).bind (fun s2 => get_amount s2 n "kg" t)
      = Except.ok v ∧
    set_amount s n v "g/L" t = Except.error PyErr.nameError := by
  have hm : get_solvent_mass s = Except.ok (soluteMassKg sv) := by
    unfold get_solvent_mass
    rw [hsv]
  refine ⟨?_, ?_, ?_, ?_, rfl⟩
  · rw [set_amount_mol s n v t ion hfind]
    simp only [Except.bind]
    rw [get_amount_eq _ n "mol" t _ (findComp_setMolesComp_self _ _ _ _ hfind),
      amount_of_mol]
  · rw [set_amount_molperL s n v t ion hfind]
    simp only [Except.bind]
    rw [get_amount_eq _ n "mol/L" t _ (findComp_setMolesComp_self _ _ _ _ hfind),
      amount_of_molperL]
    show Except.ok (v * s.volume / s.volume) = Except.ok v
    rw [mul_div_assoc, div_self hvol, mul_one]
  · rw [set_amount_molperkg s n v t ion (soluteMassKg sv) hfind hm]
    simp only [Except.bind]
    rw [get_amount_eq _ n "mol/kg" t _ (findComp_setMolesComp_self _ _ _ _ hfind),
      amount_of_molperkg _ _ _ (soluteMassKg sv)
        (by rw [get_solvent_mass_setMoles s n _ hns, hm])]
    simp only []
    rw [mul_div_assoc, div_self hM, mul_one]
  · rw [set_amount_kg s n v t ion hfind]
    simp only [Except.bind]
    rw [get_amount_eq _ n "kg" t _ (findComp_setMolesComp_self _ _ _ _ hfind),
      amount_of_kg]
    simp only [Except.ok.injEq]
    field_simp
    norm_num

/-- C2 witness: the four working round trips and the 'g/L' NameError at
sol3, solute Na+, value 1/2. -/
theorem C2_roundtrip_amended_witness :
    (set_amount sol3 "Na+" (1/2) "mol" 25).bind
      (fun s2 => get_amount s2 "Na+" "mol" 25) = Except.ok (1/2) ∧
    (set_amount sol3 "Na+" (1/2) "mol/L" 25).bind
      (fun s2 => get_amount s2 "Na+" "mol/L" 25) = Except.ok (1/2) ∧
    (set_amount sol3 "Na+" (1/2) "mol/kg" 25).bind
      (fun s2 => get_amount s2 "Na+" "mol/kg" 25) = Except.ok (1/2) ∧
    (set_amount sol3 "Na+" (1/2) "kg" 25).bind
      (fun s2 => get_amount s2 "Na+" "kg" 25) = Except.ok (1/2) ∧
    set_amount sol3 "Na+" (1/2) "g/L" 25 = Except.error PyErr.nameError :=
  C2_roundtrip_amended sol3 "Na+" (1/2) 25 (naSolute 2) waterSolute rfl rfl
    (by decide) (by norm_num [sol3]) (by norm_num [soluteMassKg, waterSolute])
    (by norm_num [naSolute])

end PyEQL

namespace PyEQL

/-- C3: the claim says mix conserves moles over the union of solute keys,
carrying a solute present in only one parent unchanged.  The source instead
crashes whenever the second parent has a solute the first lacks: the
parameter-copy loop's elif reads the misspelled attribute
Solution2.componenents (src/pyEQL.py:915), an AttributeError.  Concretely,
solA (water + Na+) and solB (water + Cl-) share the solvent H2O, Cl- lives
only in solB, and mix(solA, solB) raises instead of returning the blend. -/
theorem C3_mix_attribute_error :
    solA.solvent_name = solB.solvent_name ∧
    findComp solA.components "Cl-" = none ∧
    findComp solB.components "Cl-" = some (clSolute (1/10)) ∧
    mix solA solB = Except.error PyErr.attributeError := by
  refine ⟨rfl, rfl, rfl, ?_⟩
  simp [mix, get_solvent_mass, get_mass, listMass, get_volume, mergedKeys,
    componentDescs, mkSolution, add_solute_init, mkSolute, updateComp, tcpcCopy,
    setTCPCComp, set_parameters_TCPC, findComp, soluteMassKg, List.foldl,
    List.foldlM, List.map, bind, Except.bind, pure, Except.pure, charge_H2O,
    charge_Na, charge_Cl, solA, solB, waterSolute, naSolute, clSolute]

/-- C4: the claim says mix with different or non-water solvents fails with an
incompatible-solvent error and produces no Solution.  The source's two
solvent checks (src/pyEQL.py:858-862) only call logger.error and fall
through, so mixing two D2O solutions completes and returns a full blend. -/
theorem C4_mix_nonaqueous_no_abort :
    solD.solvent_name ≠ "H2O" ∧ solD.solvent_name ≠ "water" ∧
    exceptIsOk (mix solD solD) = true := by
  refine ⟨by decide, by decide, ?_⟩
  simp [mix, get_solvent_mass, get_mass, listMass, get_volume, mergedKeys,
    componentDescs, mkSolution, add_solute_init, mkSolute, updateComp, tcpcCopy,
    setTCPCComp, set_parameters_TCPC, findComp, soluteMassKg, List.foldl,
    List.foldlM, List.map, bind, Except.bind, pure, Except.pure, charge_D2O,
    charge_Na, solD, d2oSolute, naSolute, exceptIsOk]

end PyEQL

namespace PyEQL

/-- C9: for a water-solvent Solution, get_activity('H2O') is
exp(-phi * 0.018015 * total non-solvent moles), with phi the osmotic
coefficient of the predominant non-solvent solute; that solute carries the
maximum mole count over all non-solvent components, and it is the first
component attaining that maximum (strict comparison, first-encountered tie
break).  When no non-solvent solute has positive moles, the activity is
exactly 1. -/
theorem C9_water_activity (s : Solution) (t : ℚ) (_hsolv : s.solvent_name = "H2O") :
    (0 < (predominant_solute s).1 →
      get_activity s "H2O" t =
        (get_osmotic_coefficient s (predominant_solute s).2 t).map
          (fun phi => Real.exp (-phi * 0.018015 * ((get_total_moles_solute s : ℚ) : ℝ))) ∧
      (∀ c ∈ s.components, c.formula ≠ s.solvent_name →
        c.moles ≤ (predominant_solute s).1) ∧
      ∃ i, ∃ h : i < s.components.length,
        (s.components.get ⟨i, h⟩).formula ≠ s.solvent_name ∧
        (s.components.get ⟨i, h⟩).moles = (predominant_solute s).1 ∧
        (s.components.get ⟨i, h⟩).formula = (predominant_solute s).2 ∧
        ∀ j, ∀ hj : j < s.components.length, j < i →
          (s.components.get ⟨j, hj⟩).formula ≠ s.solvent_name →
          (s.components.get ⟨j, hj⟩).moles < (predominant_solute s).1) ∧
    ((∀ c ∈ s.components, c.formula ≠ s.solvent_name → c.moles ≤ 0) →
      get_activity s "H2O" t = Except.ok 1) := by
  have hshape : get_activity s "H2O" t =
      if 0 < (predominant_solute s).1 then
        get_water_activity s (predominant_solute s).2 t
      else Except.ok 1 := rfl
  constructor
  · intro hpos
    refine ⟨?_, ?_, ?_⟩
    · rw [hshape, if_pos hpos]
      rfl
    · exact fun c hc hn => predomAux_ub s.solvent_name s.components (0, "") c hc hn
    · rcases predomAux_first s.solvent_name s.components (0, "") with heq | hex
      · exfalso
        have : (predominant_solute s).1 = 0 := by
          rw [predominant_solute, heq]
        rw [this] at hpos
        exact lt_irrefl 0 hpos
      · rcases hex with ⟨i, hi, h1, h2, h3, _, h5⟩
        exact ⟨i, hi, h1, h2, h3, h5⟩
  · intro hz
    have hid : predomAux s.solvent_name s.components (0, "") = (0, "") :=
      predomAux_id s.solvent_name s.components (0, "")
        (fun c hc hcond => absurd hcond.2 (not_lt.mpr (hz c hc hcond.1)))
    rw [hshape, predominant_solute, hid]
    norm_num

/-- C9 witness at the spec's example composition solW (0.0115 mol Na+,
0.0175 mol Cl- in 1 kg water): the dominant solute is positive and the
solvent-activity formula holds there. -/
theorem C9_water_activity_witness :
    get_activity solW "H2O" 25 =
      (get_osmotic_coefficient solW (predominant_solute solW).2 25).map
        (fun phi => Real.exp (-phi * 0.018015 * ((get_total_moles_solute solW : ℚ) : ℝ))) :=
  (((C9_water_activity solW 25 rfl).1
    (by simp [predominant_solute, predomAux, solW, waterSolute, naSolute,
      clSolute]
        norm_num)).1)

end PyEQL
